import Mathlib

/-!
Shallow embedding of the solana-meme-kit SDK core: the launch orchestrator
(MemeKit.ts and its revisions), the Meteora DLMM liquidity strategy
(DLMMManager.ts), the Jito bundle submission adapter (JitoManager.ts) and the
block-engine routing helpers (jitoTools.ts).

Conventions:
- JavaScript numbers appearing in pure integer/decimal computations are
  modelled as `ℚ` (amounts, prices) or `ℤ` (bin ids, lamports, basis points);
  `Math.floor` is `Int.floor` on `ℚ`/`ℝ` or `Int.fdiv` on integer quotients.
- `Math.exp` is modelled as `Real.exp`; the LFG distribution is therefore
  real-valued (the source computes it in IEEE doubles; every concrete value
  used in a theorem below is far from a rounding boundary).
- External collaborators (RPC connection, the Meteora SDK price/bin helpers,
  key generation, the system clock) are oracle parameters; network reads and
  writes are recorded as explicit events so that "before any network call"
  is a statement about the event trace.
- TypeScript `a ?? b` is `Option.getD` / explicit matches; `a || b` on numbers
  treats `0` as falsy, which is modelled explicitly where the source uses it.
-/

/-! ## Data model (LiquidityStrategy.ts) -/

/-- Tip policy for bundling: `jitoTip?: number | "auto"`. -/
inductive JitoTip
  | auto
  | sol (amount : ℚ)
  deriving DecidableEq

/-- `meteora.lfg` block: explicit price range plus curvature. -/
structure LfgConfig where
  minPrice : Option ℚ := none
  maxPrice : Option ℚ := none
  curvature : Option ℚ := none
  deriving DecidableEq

/-- Meteora `StrategyType` (Spot / Curve / BidAsk). -/
inductive StratTy
  | spot
  | curve
  | bidAsk
  deriving DecidableEq

/-- `MeteoraOptions` from LiquidityStrategy.ts (activation date held as epoch
milliseconds, mirroring JavaScript `Date.getTime()`). -/
structure MeteoraConfig where
  activationDateMs : Option ℤ := none
  binStep : Option ℤ := none
  width : Option ℤ := none
  strategyName : Option String := none
  strategyTypeOpt : Option StratTy := none
  lfg : Option LfgConfig := none
  feeBps : Option ℤ := none
  baseFactor : Option ℤ := none
  includeAlphaVault : Option Bool := none
  deriving DecidableEq

/-- `options.meteoraOptions`: activation scheduling. -/
structure MeteoraTiming where
  activationPoint : Option ℤ := none
  activationDateMs : Option ℤ := none
  activationType : Option String := none
  deriving DecidableEq

/-- `options.liquidity`: the two seed amounts. -/
structure LiquidityPair where
  solAmount : ℚ
  tokenAmount : ℚ
  deriving DecidableEq

/-- `LaunchOptions` from LiquidityStrategy.ts (fields irrelevant to the
verified claims — name, symbol, image — are omitted; they are opaque strings
passed through to the token-minting collaborator). -/
structure LaunchOptions where
  decimals : Option ℕ := none
  supply : Option ℤ := none
  solLiquidityAmount : Option ℚ := none
  tokenLiquidityAmount : Option ℚ := none
  liquidity : Option LiquidityPair := none
  dex : Option String := none
  strategy : Option String := none
  jitoTip : Option JitoTip := none
  blockEngine : Option String := none
  meteoraOptions : Option MeteoraTiming := none
  meteora : Option MeteoraConfig := none
  marketMode : Option String := none
  deriving DecidableEq

/-! ## Strategy selection (MemeKit.ts lines 148-156 / part_009 lines 184-193) -/

/-- The three liquidity strategy variants. -/
inductive DexVariant
  | dlmm
  | cpmm
  | legacyAmm
  deriving DecidableEq

/-- MemeKit.ts (core revision), lines 148-156: `options.dex ??` a ternary
chain over the legacy `strategy` alias, defaulting to `"meteora:dlmm"`. -/
def resolveDexSelector (dex strategy : Option String) : String :=
  match dex with
  | some d => d
  | none =>
    if strategy = some "meteora" then "meteora:dlmm"
    else if strategy = some "raydium-cpmm" then "raydium:cpmm"
    else if strategy = some "raydium-amm" then "raydium:amm"
    else "meteora:dlmm"

/-- part_009 revision, lines 184-193: the alias chain yields the short name
`"meteora"`, which a second step normalizes to `"meteora:dlmm"`. -/
def resolveDexSelector009 (dex strategy : Option String) : String :=
  let selected :=
    match dex with
    | some d => d
    | none =>
      if strategy = some "meteora" then "meteora"
      else if strategy = some "raydium-cpmm" then "raydium:cpmm"
      else if strategy = some "raydium-amm" then "raydium:amm"
      else "meteora"
  if selected = "meteora" then "meteora:dlmm" else selected

/-- The `switch (dex)` statement instantiating a strategy (identical in every
MemeKit revision); the `default` case throws. -/
def strategySwitch (dex : String) : Except String DexVariant :=
  if dex = "meteora:dlmm" then .ok .dlmm
  else if dex = "raydium:cpmm" then .ok .cpmm
  else if dex = "raydium:amm" then .ok .legacyAmm
  else .error ("Unknown DEX strategy: " ++ dex)

/-- Strategy selection of the core MemeKit.ts revision. -/
def selectStrategyVariant (dex strategy : Option String) : Except String DexVariant :=
  strategySwitch (resolveDexSelector dex strategy)

/-- Strategy selection of the part_009 revision. -/
def selectStrategyVariant009 (dex strategy : Option String) : Except String DexVariant :=
  strategySwitch (resolveDexSelector009 dex strategy)

/-! ## Cost estimator (MemeKit.ts lines 67-102) -/

/-- `MemeKit.estimateLaunchCost` (core MemeKit.ts revision, lines 67-102):
base fee by strategy, plus the requested native liquidity, plus the numeric
tip (default 0.01), plus a 0.005 buffer. -/
def estimateLaunchCost (o : LaunchOptions) : ℚ :=
  let solLiquidity : ℚ :=
    match o.liquidity with
    | some l => l.solAmount
    | none => o.solLiquidityAmount.getD 0
  let dex := resolveDexSelector o.dex o.strategy
  let baseFees : ℚ :=
    if dex = "meteora:dlmm" then 0.025
    else if dex = "raydium:cpmm" then 0.15
    else if dex = "raydium:amm" then
      (if o.marketMode.getD "low-cost" = "low-cost" then 0.6 else 3.2)
    else 0.025
  let jitoTip : ℚ :=
    match o.jitoTip with
    | some (JitoTip.sol t) => t
    | _ => 0.01
  baseFees + solLiquidity + jitoTip + 0.005

/-- Spec-side strategy resolution (claim wording: the overlapping selectors
resolve to exactly one of the three variants, defaulting to dlmm). -/
def specStrategyVariant (o : LaunchOptions) : DexVariant :=
  let d := resolveDexSelector o.dex o.strategy
  if d = "raydium:cpmm" then .cpmm
  else if d = "raydium:amm" then .legacyAmm
  else .dlmm

/-- Spec-side base fee table (claim wording: 0.025 dlmm, 0.15 cpmm, 0.6
legacy low-cost, 3.2 legacy standard). -/
def specBaseFee (o : LaunchOptions) : ℚ :=
  match specStrategyVariant o with
  | .dlmm => 0.025
  | .cpmm => 0.15
  | .legacyAmm => if o.marketMode.getD "low-cost" = "low-cost" then 0.6 else 3.2

/-- Spec-side tip resolution (claim wording: the numeric jitoTip when given,
0.01 otherwise). -/
def specTip (o : LaunchOptions) : ℚ :=
  match o.jitoTip with
  | some (JitoTip.sol t) => t
  | _ => 0.01

/-- Spec-side requested native liquidity. -/
def specSolLiquidity (o : LaunchOptions) : ℚ :=
  match o.liquidity with
  | some l => l.solAmount
  | none => o.solLiquidityAmount.getD 0

/-- Spec-side cost formula from claim C8's words. -/
def specLaunchCost (o : LaunchOptions) : ℚ :=
  specBaseFee o + specSolLiquidity o + specTip o + 0.005

/-- `MemeKit.estimateLaunchCost` of the part_008/part_009 revisions
(part_009 lines 70-138): the same base-fee/tip/buffer model, with the dex
selector normalized through the `"meteora"` alias, plus — when the dlmm
strategy carries an explicit LFG price range — a rent increment of 0.001 SOL
per bin array beyond the default width's coverage. The bin count is
estimated with `Math.log` (modelled as `Real.log`), so this revision's
estimator is real-valued. The source guards the increment with
`dex === "meteora:dlmm" && lfg?.minPrice !== undefined && lfg?.maxPrice !==
undefined`; the conjuncts are tested here in match-then-if order, which is
equivalent. -/
noncomputable def estimateLaunchCost009 (o : LaunchOptions) : ℝ :=
  let solLiquidity : ℚ :=
    match o.liquidity with
    | some l => l.solAmount
    | none => o.solLiquidityAmount.getD 0
  let dex := resolveDexSelector009 o.dex o.strategy
  let baseFees0 : ℝ :=
    if dex = "meteora:dlmm" then 0.025
    else if dex = "raydium:cpmm" then 0.15
    else if dex = "raydium:amm" then
      (if o.marketMode.getD "low-cost" = "low-cost" then 0.6 else 3.2)
    else 0.025
  let baseFees : ℝ :=
    match o.meteora.bind (fun m => m.lfg) with
    | some l =>
      match l.minPrice, l.maxPrice with
      | some p1, some p2 =>
        if dex = "meteora:dlmm" then
          let binStep : ℤ := (o.meteora.bind (fun m => m.binStep)).getD 100
          let minPrice : ℚ := min p1 p2
          let maxPrice : ℚ := max p1 p2
          if 0 < minPrice ∧ 0 < maxPrice ∧ 0 < binStep then
            let step : ℝ := (binStep : ℝ) / 10000
            let ratio : ℝ := ((maxPrice : ℚ) : ℝ) / ((minPrice : ℚ) : ℝ)
            let binCount : ℤ := max 1 (⌊Real.log ratio / Real.log (1 + step)⌋ + 1)
            let binsPerArray : ℤ := 70
            let defaultWidth : ℤ := 80
            let defaultBinArrays : ℤ := ⌈((defaultWidth : ℚ)) / ((binsPerArray : ℚ))⌉
            let binArrays : ℤ := ⌈((binCount : ℚ)) / ((binsPerArray : ℚ))⌉
            let extraBinArrays : ℤ := max 0 (binArrays - defaultBinArrays)
            baseFees0 + (extraBinArrays : ℝ) * 0.001
          else baseFees0
        else baseFees0
      | _, _ => baseFees0
    | none => baseFees0
  baseFees + (solLiquidity : ℝ) +
    ((match o.jitoTip with
      | some (JitoTip.sol t) => t
      | _ => 0.01 : ℚ) : ℝ) + 0.005

/-- Spec-side strategy resolution for the part_009 revision (the `"meteora"`
alias normalized to the dlmm variant, per the amended C6 resolution). -/
def specStrategyVariant009 (o : LaunchOptions) : DexVariant :=
  let d := resolveDexSelector009 o.dex o.strategy
  if d = "raydium:cpmm" then .cpmm
  else if d = "raydium:amm" then .legacyAmm
  else .dlmm

/-- Spec-side base fee table over the part_009 resolution. -/
def specBaseFee009 (o : LaunchOptions) : ℚ :=
  match specStrategyVariant009 o with
  | .dlmm => 0.025
  | .cpmm => 0.15
  | .legacyAmm => if o.marketMode.getD "low-cost" = "low-cost" then 0.6 else 3.2

/-- Spec-side cost formula from claim C8's words, over the part_009
resolution. -/
def specLaunchCost009 (o : LaunchOptions) : ℚ :=
  specBaseFee009 o + specSolLiquidity o + specTip o + 0.005

/-- Options with an explicit LFG price range 1..5 at binStep 100: the range
spans 162 bins, i.e. three bin arrays against the default width's two. -/
def oLfgWide : LaunchOptions :=
  { liquidity := some ⟨1, 100⟩
    dex := some "meteora:dlmm"
    meteora := some
      { binStep := some 100
        lfg := some { minPrice := some 1, maxPrice := some 5 } } }

/-! ## Recovery sweep (MemeKit.ts lines 108-145) -/

/-- Steps of `recoverFunds` after the balance read, in source order. -/
inductive RecoverStep
  | builtTransfer (lamports : ℤ)
  | sentTx
  | confirmedTx
  deriving DecidableEq

/-- `MemeKit.recoverFunds` (lines 108-145): reads the wallet balance
(`balance`, an oracle input), reserves 5000 lamports for the fee, and either
fails before building anything or builds/sends/confirms a transfer of the
remainder, returning the signature produced by the transport (`sig`). -/
def recoverFunds (balance : ℤ) (sig : String) : List RecoverStep × Except String String :=
  let transactionFeeLamports : ℤ := 5000
  let maxTransfer := balance - transactionFeeLamports
  if maxTransfer ≤ 0 then
    ([], .error "No funds available to recover")
  else
    ([.builtTransfer maxTransfer, .sentTx, .confirmedTx], .ok sig)

/-! ## Block-engine routing (jitoTools.ts lines 32-55) -/

/-- `BlockEngineRegion` (jitoTools.ts lines 3-9); `defaultRegion` models the
string `"default"`. -/
inductive BlockEngineRegion
  | defaultRegion
  | ny
  | amsterdam
  | frankfurt
  | tokyo
  | slc
  deriving DecidableEq

/-- Cluster selector. -/
inductive Cluster
  | mainnetBeta
  | devnet
  deriving DecidableEq

/-- `getBlockEngineHost` (jitoTools.ts lines 32-55): devnet short-circuits to
the fixed devnet host before the region switch. -/
def getBlockEngineHost (cluster : Cluster) (region : BlockEngineRegion) : String :=
  match cluster with
  | .devnet => "ny.devnet.block-engine.jito.wtf"
  | .mainnetBeta =>
    match region with
    | .ny => "ny.mainnet.block-engine.jito.wtf"
    | .amsterdam => "amsterdam.mainnet.block-engine.jito.wtf"
    | .frankfurt => "frankfurt.mainnet.block-engine.jito.wtf"
    | .tokyo => "tokyo.mainnet.block-engine.jito.wtf"
    | .slc => "slc.mainnet.block-engine.jito.wtf"
    | .defaultRegion => "mainnet.block-engine.jito.wtf"

/-! ## Bundle signing (JitoManager.ts lines 91-143) -/

/-- Account addresses are abstract identifiers. -/
abbrev Pubkey := ℕ

/-- web3.js `AccountMeta`. -/
structure AccountMeta where
  pubkey : Pubkey
  flagSigner : Bool
  flagWritable : Bool
  deriving DecidableEq

/-- A transaction instruction: program, account metas, and (for transfers)
the lamport payload. -/
structure IxModel where
  programId : Pubkey
  keys : List AccountMeta
  dataLamports : ℤ := 0
  deriving DecidableEq

/-- The system program address. -/
def systemProgramId : Pubkey := 0

/-- `SystemProgram.transfer` account metas: source is a writable signer,
destination writable. -/
def transferIx (fromKey toKey : Pubkey) (lamports : ℤ) : IxModel :=
  { programId := systemProgramId
    keys := [⟨fromKey, true, true⟩, ⟨toKey, false, true⟩]
    dataLamports := lamports }

/-- web3.js message compilation: the required signers of a compiled message
are the fee payer plus every account marked as a signer by some instruction
(the first `numRequiredSignatures` static account keys). -/
def requiredSignerKeys (payer : Pubkey) (ixs : List IxModel) : List Pubkey :=
  payer :: (((ixs.map (fun ix => ix.keys)).flatten.filter
    (fun k => k.flagSigner)).map (fun k => k.pubkey))

/-- A compiled-and-signed bundle transaction: its instruction list and the
keys actually used to sign it. -/
structure TxModel where
  instructions : List IxModel
  signers : List Pubkey
  deriving DecidableEq

/-- `JitoManager.sendBundleGroups` (JitoManager.ts lines 91-143): rejects an
empty group list, appends the tip transfer to the last group only, and signs
every group's transaction with `[this.wallet, ...extraSigners]` — the same
full signer list for every group. -/
def sendBundleGroups (wallet tipAccount : Pubkey) (tipLamports : ℤ)
    (instructionGroups : List (List IxModel)) (extraSigners : List Pubkey) :
    Except String (List TxModel) :=
  if instructionGroups.length = 0 then
    .error "instructionGroups must be a non-empty array"
  else
    .ok (instructionGroups.mapIdx (fun idx group =>
      let groupInstructions :=
        if idx = instructionGroups.length - 1 then
          group ++ [transferIx wallet tipAccount tipLamports]
        else group
      { instructions := groupInstructions, signers := wallet :: extraSigners }))

/-- The claim's signer-scoping discipline (also what part_009's launch does on
its non-bundle paths): the payer plus only those extra signers whose public
keys appear among the transaction's required signer set. -/
def scopedSigners (wallet : Pubkey) (extraSigners : List Pubkey) (tx : TxModel) :
    List Pubkey :=
  wallet :: extraSigners.filter (fun s => (requiredSignerKeys wallet tx.instructions).contains s)

/-- Wallet key of the concrete two-group bundle scenario. -/
def bundleWallet : Pubkey := 1

/-- Position identity (extra signer) of the scenario. -/
def bundlePositionKey : Pubkey := 2

/-- Transfer destination of the scenario's first group. -/
def bundleDest : Pubkey := 3

/-- Tip account of the scenario. -/
def bundleTipAccount : Pubkey := 4

/-- The DLMM program address of the scenario. -/
def dlmmProgramPk : Pubkey := 9

/-- First group: a plain transfer referencing only the wallet as signer. -/
def groupOne : List IxModel := [transferIx bundleWallet bundleDest 5]

/-- Second group: a position-initialization style instruction whose metas
mark both the wallet and the position key as signers. -/
def groupTwo : List IxModel :=
  [{ programId := dlmmProgramPk
     keys := [⟨bundleWallet, true, true⟩, ⟨bundlePositionKey, true, true⟩] }]

/-- Expected first bundle transaction under the source's signing rule. -/
def leakTx1 : TxModel :=
  { instructions := groupOne, signers := [bundleWallet, bundlePositionKey] }

/-- Expected second bundle transaction under the source's signing rule. -/
def leakTx2 : TxModel :=
  { instructions := groupTwo ++ [transferIx bundleWallet bundleTipAccount 1000]
    signers := [bundleWallet, bundlePositionKey] }

/-! ## Launch submission outcome (MemeKit.ts lines 206-273, part_009 lines 256-510) -/

/-- The record returned by `MemeKit.launch`. -/
structure LaunchRecord where
  mint : ℕ
  poolId : ℕ
  marketId : String
  strategy : String
  signature : String
  deriving DecidableEq

/-- Submission stage of `launch` in the core MemeKit.ts revision (lines
206-273): with instructions present, a submission failure is caught and the
record is still returned with `signature = "Failed: " ++ message`; with no
instructions the signature stays `"Dry-run (not sent)"`. `submission`
abstracts the transport outcome of whichever path ran (Jito bundle or direct
transaction). -/
def launchOutcomeCore (mint poolId : ℕ) (dex : String) (hasInstructions : Bool)
    (submission : Except String String) : LaunchRecord :=
  let signature :=
    if hasInstructions then
      match submission with
      | .ok sig => sig
      | .error msg => "Failed: " ++ msg
    else "Dry-run (not sent)"
  { mint := mint
    poolId := poolId
    marketId := if dex = "raydium:amm" then "Generated internally" else "Not Required"
    strategy := dex
    signature := signature }

/-- Submission stage of `launch` in the part_009 revision (lines 256-510):
every submission path (devnet sequential, Jito bundle, direct transaction)
rethrows its error, so a failing submission rejects the whole call. -/
def launchOutcome009 (mint poolId : ℕ) (dex : String) (hasInstructions : Bool)
    (submission : Except String String) : Except String LaunchRecord :=
  if hasInstructions then
    match submission with
    | .ok sig =>
        .ok { mint := mint
              poolId := poolId
              marketId := if dex = "raydium:amm" then "Generated internally" else "Not Required"
              strategy := dex
              signature := sig }
    | .error msg => .error msg
  else
    .ok { mint := mint
          poolId := poolId
          marketId := if dex = "raydium:amm" then "Generated internally" else "Not Required"
          strategy := dex
          signature := "Dry-run (not sent)" }

/-! ## Theorems: C6 (strategy selection) -/

/-- C6 counterexample: selection does not totally fall back on unrecognized
selectors. In the core MemeKit.ts revision the type-legal selector
`dex = "meteora"` reaches the switch unnormalized and throws
`Unknown DEX strategy: meteora`; in the part_009 revision an unrecognized
dex string likewise throws instead of falling back to the dlmm default. -/
theorem selectStrategy_unrecognized_throws :
    selectStrategyVariant (some "meteora") none =
      .error "Unknown DEX strategy: meteora" ∧
    selectStrategyVariant009 (some "bogus") none =
      .error "Unknown DEX strategy: bogus" := by
  constructor <;> rfl

/-- C6 amended: in the part_009 revision, an absent dex with an absent or
unrecognized strategy alias falls back to the dlmm variant; the recognized
aliases and the four declared dex values each resolve deterministically to
exactly one variant (only an explicitly supplied unrecognized dex string
fails, as shown by the counterexample). -/
theorem selectStrategy_resolution_amended :
    (∀ strat : Option String, strat ≠ some "raydium-cpmm" → strat ≠ some "raydium-amm" →
      selectStrategyVariant009 none strat = .ok .dlmm) ∧
    selectStrategyVariant009 none (some "raydium-cpmm") = .ok .cpmm ∧
    selectStrategyVariant009 none (some "raydium-amm") = .ok .legacyAmm ∧
    (∀ strat, selectStrategyVariant009 (some "meteora") strat = .ok .dlmm) ∧
    (∀ strat, selectStrategyVariant009 (some "meteora:dlmm") strat = .ok .dlmm) ∧
    (∀ strat, selectStrategyVariant009 (some "raydium:cpmm") strat = .ok .cpmm) ∧
    (∀ strat, selectStrategyVariant009 (some "raydium:amm") strat = .ok .legacyAmm) := by
  refine ⟨?_, rfl, rfl, fun _ => rfl, fun _ => rfl, fun _ => rfl, fun _ => rfl⟩
  intro strat h1 h2
  by_cases hm : strat = some "meteora"
  · subst hm; rfl
  · simp [selectStrategyVariant009, resolveDexSelector009, strategySwitch, hm, h1, h2]

/-- C6 amended witness: the fallback clause applied at the concrete
unrecognized alias `strategy = "weird"`. -/
theorem selectStrategy_resolution_amended_witness :
    selectStrategyVariant009 none (some "weird") = .ok .dlmm :=
  selectStrategy_resolution_amended.1 (some "weird") (by decide) (by decide)

/-! ## Theorems: C8 (cost estimator) -/

/-- The log-quotient bin estimate of the price range 1..5 at step 0.01:
`1.01^161 ≤ 5 < 1.01^162`, so the floored quotient is 161. -/
theorem log_ratio_floor_161 : ⌊Real.log 5 / Real.log ((101:ℝ)/100)⌋ = 161 := by
  have hlp : 0 < Real.log ((101:ℝ)/100) := Real.log_pos (by norm_num)
  rw [Int.floor_eq_iff]
  constructor
  · rw [le_div_iff₀ hlp]
    have h := Real.log_le_log (by positivity)
      (show ((101:ℝ)/100)^(161:ℕ) ≤ 5 by norm_num)
    rw [Real.log_pow] at h
    push_cast at h ⊢
    linarith
  · rw [div_lt_iff₀ hlp]
    have h := Real.log_lt_log (by norm_num)
      (show (5:ℝ) < ((101:ℝ)/100)^(162:ℕ) by norm_num)
    rw [Real.log_pow] at h
    push_cast at h ⊢
    linarith

/-- C8 counterexample: on the part_009 revision the claimed unconditional
formula fails once an explicit LFG price range widens the bin coverage. At
binStep 100 with price range 1..5 the estimated range is 162 bins = three
bin arrays, one beyond the default width's two, so the estimate is
`0.026 + 1 + 0.01 + 0.005 = 1.041`, while the claimed formula gives 1.04 —
a gap of 0.001, far beyond the claim's 1e-8 tolerance. -/
theorem estimateLaunchCost009_lfg_deviates :
    estimateLaunchCost009 oLfgWide = 1.041 ∧
    ((specLaunchCost oLfgWide : ℚ) : ℝ) = 1.04 ∧
    estimateLaunchCost009 oLfgWide ≠ ((specLaunchCost oLfgWide : ℚ) : ℝ) := by
  have hceilA : (⌈(8:ℚ)/7⌉ : ℤ) = 2 := by
    rw [Int.ceil_eq_iff] <;> norm_num
  have hceilB : (⌈(81:ℚ)/35⌉ : ℤ) = 3 := by
    rw [Int.ceil_eq_iff] <;> norm_num
  have h1 : estimateLaunchCost009 oLfgWide = 1.041 := by
    simp only [estimateLaunchCost009, oLfgWide, resolveDexSelector009]
    norm_num [log_ratio_floor_161, hceilA, hceilB]
  have h2 : ((specLaunchCost oLfgWide : ℚ) : ℝ) = 1.04 := by
    simp +decide [specLaunchCost, specBaseFee, specStrategyVariant, specTip,
      specSolLiquidity, resolveDexSelector, oLfgWide]
    norm_num
  refine ⟨h1, h2, ?_⟩
  rw [h1, h2]
  norm_num

/-- C8 amended: the cost formula `baseFee + solLiquidity + tip + 0.005`
holds unconditionally in the core MemeKit.ts revision and, in the part_009
revision, whenever no explicit LFG price range is present (with a range that
revision adds 0.001 per bin array beyond the default width — see the
counterexample); the claimed concrete values hold in both revisions: 1.04
for the dlmm strategy with solAmount 1 and default tip (no explicit range),
1.115 / 3.715 for the legacy strategy with solAmount 0.5 in low-cost /
standard market mode (exact equality, hence within 1e-8 of the IEEE
result). -/
theorem estimateLaunchCost_formula :
    (∀ o : LaunchOptions, estimateLaunchCost o = specLaunchCost o) ∧
    (∀ o : LaunchOptions, o.meteora.bind (fun m => m.lfg) = none →
      estimateLaunchCost009 o = ((specLaunchCost009 o : ℚ) : ℝ)) ∧
    estimateLaunchCost { liquidity := some ⟨1, 100⟩, dex := some "meteora:dlmm" } = 1.04 ∧
    estimateLaunchCost { liquidity := some ⟨0.5, 100⟩, dex := some "raydium:amm" } = 1.115 ∧
    estimateLaunchCost
      { liquidity := some ⟨0.5, 100⟩, dex := some "raydium:amm",
        marketMode := some "standard" } = 3.715 ∧
    estimateLaunchCost009 { liquidity := some ⟨1, 100⟩, dex := some "meteora:dlmm" } = 1.04 ∧
    estimateLaunchCost009 { liquidity := some ⟨0.5, 100⟩, dex := some "raydium:amm" } = 1.115 ∧
    estimateLaunchCost009
      { liquidity := some ⟨0.5, 100⟩, dex := some "raydium:amm",
        marketMode := some "standard" } = 3.715 := by
  refine ⟨?_, ?_,
    by simp +decide [estimateLaunchCost, resolveDexSelector]; norm_num,
    by simp +decide [estimateLaunchCost, resolveDexSelector]; norm_num,
    by simp +decide [estimateLaunchCost, resolveDexSelector]; norm_num,
    by simp +decide [estimateLaunchCost009, resolveDexSelector009]; norm_num,
    by simp +decide [estimateLaunchCost009, resolveDexSelector009]; norm_num,
    by simp +decide [estimateLaunchCost009, resolveDexSelector009]; norm_num⟩
  · intro o
    unfold estimateLaunchCost specLaunchCost specBaseFee specStrategyVariant specTip
      specSolLiquidity
    by_cases h1 : resolveDexSelector o.dex o.strategy = "meteora:dlmm"
    · simp [h1]
    · by_cases h2 : resolveDexSelector o.dex o.strategy = "raydium:cpmm"
      · simp [h1, h2]
      · by_cases h3 : resolveDexSelector o.dex o.strategy = "raydium:amm"
        · simp [h1, h2, h3]
        · simp [h1, h2, h3]
  · intro o hlfg
    unfold estimateLaunchCost009 specLaunchCost009 specBaseFee009 specStrategyVariant009
      specTip specSolLiquidity
    rw [hlfg]
    by_cases h1 : resolveDexSelector009 o.dex o.strategy = "meteora:dlmm"
    · simp [h1]
    · by_cases h2 : resolveDexSelector009 o.dex o.strategy = "raydium:cpmm"
      · simp [h1, h2]
      · by_cases h3 : resolveDexSelector009 o.dex o.strategy = "raydium:amm"
        · simp [h1, h2, h3]
          split_ifs <;> norm_num
        · simp [h1, h2, h3]

/-- C8 amended witness: the no-range clause of the part_009 estimator
applied at the concrete dlmm request with solAmount 1 and default tip. -/
theorem estimateLaunchCost_formula_witness :
    estimateLaunchCost009 { liquidity := some ⟨1, 100⟩, dex := some "meteora:dlmm" } =
      ((specLaunchCost009 { liquidity := some ⟨1, 100⟩, dex := some "meteora:dlmm" } : ℚ) : ℝ) :=
  estimateLaunchCost_formula.2.1
    { liquidity := some ⟨1, 100⟩, dex := some "meteora:dlmm" } rfl

/-! ## Theorems: C9 (recovery sweep) -/

/-- C9: for every balance, `recoverFunds` fails with
`"No funds available to recover"` — building and sending nothing — exactly
when `balance - 5000 ≤ 0`, and otherwise builds a transfer of exactly
`balance - 5000` lamports, sends it, confirms it and returns the transport's
signature. -/
theorem recoverFunds_spec (balance : ℤ) (sig : String) :
    (balance - 5000 ≤ 0 →
      recoverFunds balance sig = ([], .error "No funds available to recover")) ∧
    (0 < balance - 5000 →
      recoverFunds balance sig =
        ([.builtTransfer (balance - 5000), .sentTx, .confirmedTx], .ok sig)) := by
  constructor
  · intro h
    simp only [recoverFunds]
    rw [if_pos h]
  · intro h
    simp only [recoverFunds]
    rw [if_neg (not_le.mpr h)]

/-- C9 witness: the sweep at balance 100000 builds exactly 95000 lamports;
at balance 5000 it fails with the exact message. -/
theorem recoverFunds_spec_witness :
    recoverFunds 100000 "sig" =
      ([.builtTransfer 95000, .sentTx, .confirmedTx], .ok "sig") ∧
    recoverFunds 5000 "sig" = ([], .error "No funds available to recover") :=
  ⟨by simpa using (recoverFunds_spec 100000 "sig").2 (by norm_num),
   (recoverFunds_spec 5000 "sig").1 (by norm_num)⟩

/-! ## Theorems: C10 (block-engine routing) -/

/-- C10: on devnet, `getBlockEngineHost` returns the fixed host
`ny.devnet.block-engine.jito.wtf` for every requested region (the region is
ignored), while on mainnet distinct regions produce distinct hosts. -/
theorem getBlockEngineHost_devnet_ignores_region :
    (∀ r, getBlockEngineHost .devnet r = "ny.devnet.block-engine.jito.wtf") ∧
    getBlockEngineHost .mainnetBeta .ny ≠ getBlockEngineHost .mainnetBeta .amsterdam :=
  ⟨fun _ => rfl, by decide⟩

/-! ## Theorems: C2 (bundle signer scoping) -/

/-- C2: evaluating `sendBundleGroups` on a two-group bundle whose first group
references only the wallet: the first transaction is nevertheless signed with
the position key as well (the source signs every group with the full extra
signer list), the position key is not among that transaction's required
signers, and the attached signer list differs from the claim's scoped list
`[wallet]`. -/
theorem sendBundleGroups_leaks_signer :
    sendBundleGroups bundleWallet bundleTipAccount 1000 [groupOne, groupTwo]
        [bundlePositionKey] = .ok [leakTx1, leakTx2] ∧
    leakTx1.signers = [bundleWallet, bundlePositionKey] ∧
    bundlePositionKey ∉ requiredSignerKeys bundleWallet leakTx1.instructions ∧
    scopedSigners bundleWallet [bundlePositionKey] leakTx1 = [bundleWallet] ∧
    leakTx1.signers ≠ scopedSigners bundleWallet [bundlePositionKey] leakTx1 := by
  refine ⟨?_, rfl, by decide, by decide, by decide⟩
  rfl

/-! ## Theorems: C3 (launch failure signatures) -/

/-- C3 counterexample: in the core MemeKit.ts revision, a failing submission
is caught and `launch` still resolves, returning a record whose signature
field encodes the failure as `"Failed: boom"` — it neither rejects nor
returns a success signature. -/
theorem launch_returns_failed_signature :
    (launchOutcomeCore 11 22 "meteora:dlmm" true (.error "boom")).signature =
      "Failed: boom" ∧
    ("Failed: boom" : String) ≠ "boom" :=
  ⟨rfl, by decide⟩

/-- C3 amended: in the part_009 revision the claim holds — a failing
submission makes `launch` reject with that error, a successful submission
yields a record carrying the transport's signature unchanged, and with no
instructions the record carries the literal dry-run marker; no returned
record ever encodes a submission failure. -/
theorem launch009_never_encodes_failure :
    (∀ mint poolId : ℕ, ∀ dex msg : String,
      launchOutcome009 mint poolId dex true (.error msg) = .error msg) ∧
    (∀ mint poolId : ℕ, ∀ dex sig : String,
      (launchOutcome009 mint poolId dex true (.ok sig)).map (fun r => r.signature) =
        .ok sig) ∧
    (∀ mint poolId : ℕ, ∀ dex : String, ∀ submission : Except String String,
      (launchOutcome009 mint poolId dex false submission).map (fun r => r.signature) =
        .ok "Dry-run (not sent)") :=
  ⟨fun _ _ _ _ => rfl, fun _ _ _ _ => rfl, fun _ _ _ _ => rfl⟩

/-! ## Discretized liquidity curve (DLMMManager.ts lines 97-143)

`calculateLfgDistribution` is computed with `Math.exp` in the source; it is
embedded over `ℝ` with `Real.exp`. -/

/-- Raw weights of the loop at lines 116-123: for every bin of the range, in
order, `exp (-(alpha * (|binId - center| / maxDist)))`. -/
noncomputable def lfgRawWeights (alpha : ℝ) (center maxDist lowerBinId : ℤ) (n : ℕ) :
    List ℝ :=
  (List.range n).map fun i : ℕ =>
    Real.exp (-(alpha * (((|lowerBinId + (i : ℤ) - center| : ℤ) : ℝ) / ((maxDist : ℤ) : ℝ))))

/-- Integer weights of the loop at lines 125-132: each raw weight is
normalized against the running total, scaled to 10000, floored, and clamped
to at least 1. -/
noncomputable def lfgIntWeights (raw : List ℝ) : List ℤ :=
  raw.map fun r => max 1 ⌊r / raw.sum * 10000⌋

/-- Lines 133-137: the rounding remainder `10000 - running` is absorbed into
the last weight, clamped to at least 1 (equivalent to the source's in-place
mutation of the last array element; only applied to nonempty lists). -/
def absorbRemainder (ws : List ℤ) : List ℤ :=
  ws.dropLast ++ [max 1 (ws.getLastD 0 + (10000 - ws.sum))]

/-- `DLMMManager.calculateLfgDistribution` (lines 97-143): clamp the
curvature into [0,1], return `[]` on a non-positive bin count, otherwise
clamp the active bin into the range, shape raw weights with
`alpha = 1 + 12·curvature`, normalize to integer weights and pair each with
its bin id. -/
noncomputable def calculateLfgDistribution (activeBinId lowerBinId upperBinId : ℤ)
    (curvature : ℝ) : List (ℤ × ℤ) :=
  let safeCurvature := max 0 (min 1 curvature)
  let binCount := upperBinId - lowerBinId + 1
  if binCount ≤ 0 then []
  else
    let center := max lowerBinId (min upperBinId activeBinId)
    let alpha := 1 + safeCurvature * 12
    let maxDist := max 1 (max (center - lowerBinId) (upperBinId - center))
    let weights := lfgIntWeights (lfgRawWeights alpha center maxDist lowerBinId binCount.toNat)
    (absorbRemainder weights).enum.map fun p => (lowerBinId + (p.1 : ℤ), p.2)

/-- The remainder-absorbing step never lowers the total below 10000. -/
theorem absorbRemainder_sum_ge (ws : List ℤ) (hne : ws ≠ []) :
    10000 ≤ (absorbRemainder ws).sum := by
  induction ws using List.reverseRecOn with
  | nil => exact absurd rfl hne
  | append_singleton l a _ =>
    simp only [absorbRemainder, List.dropLast_concat, List.getLastD_concat,
      List.sum_append, List.sum_cons, List.sum_nil]
    have h := le_max_right (1 : ℤ) (a + (10000 - (l.sum + (a + 0))))
    linarith

/-- The remainder-absorbing step preserves the lower bound 1 on every
weight. -/
theorem absorbRemainder_one_le (ws : List ℤ) (hws : ∀ w ∈ ws, 1 ≤ w) :
    ∀ w ∈ absorbRemainder ws, 1 ≤ w := by
  intro w hw
  rcases List.mem_append.mp hw with h | h
  · exact hws w ((List.dropLast_sublist ws).subset h)
  · rcases List.mem_singleton.mp h with rfl
    exact le_max_left _ _

/-- The remainder-absorbing step preserves length on nonempty lists. -/
theorem absorbRemainder_length (ws : List ℤ) (hne : ws ≠ []) :
    (absorbRemainder ws).length = ws.length := by
  have hpos : 0 < ws.length := List.length_pos.mpr hne
  simp only [absorbRemainder, List.length_append, List.length_dropLast,
    List.length_singleton]
  omega

/-- Every clamped integer weight is at least 1. -/
theorem lfgIntWeights_one_le (raw : List ℝ) : ∀ w ∈ lfgIntWeights raw, 1 ≤ w := by
  intro w hw
  rcases List.mem_map.mp hw with ⟨r, _, rfl⟩
  exact le_max_left _ _

/-- The weight list of a distribution, projected back out of the (bin,
weight) pairs, is exactly the remainder-adjusted clamped weight list. -/
theorem calculateLfgDistribution_map_snd (activeBinId lowerBinId upperBinId : ℤ)
    (curvature : ℝ) (h : ¬ upperBinId - lowerBinId + 1 ≤ 0) :
    (calculateLfgDistribution activeBinId lowerBinId upperBinId curvature).map Prod.snd =
      absorbRemainder (lfgIntWeights (lfgRawWeights
        (1 + max 0 (min 1 curvature) * 12)
        (max lowerBinId (min upperBinId activeBinId))
        (max 1 (max (max lowerBinId (min upperBinId activeBinId) - lowerBinId)
          (upperBinId - max lowerBinId (min upperBinId activeBinId))))
        lowerBinId (upperBinId - lowerBinId + 1).toNat)) := by
  simp only [calculateLfgDistribution, if_neg h, List.map_map]
  have : (Prod.snd ∘ fun p : ℕ × ℤ => (lowerBinId + (p.1 : ℤ), p.2)) = Prod.snd := rfl
  rw [this, List.enum_map_snd]

/-- C1 amended: for every curvature in [0,1] and bin range with 1 to 26 bins,
`calculateLfgDistribution` returns one integer weight per bin, every weight
at least 1, the rounding remainder being absorbed (clamped to 1) by the last
bin; the weights sum to at least 10000 — but not always exactly 10000: the
minimum-1 clamp can push the total above the target (see the
counterexample, where the sum is 10001). -/
theorem calculateLfgDistribution_weights (activeBinId lowerBinId upperBinId : ℤ)
    (curvature : ℝ) (hc0 : 0 ≤ curvature) (hc1 : curvature ≤ 1)
    (h1 : 1 ≤ upperBinId - lowerBinId + 1) (h26 : upperBinId - lowerBinId + 1 ≤ 26) :
    (calculateLfgDistribution activeBinId lowerBinId upperBinId curvature).length =
      (upperBinId - lowerBinId + 1).toNat ∧
    (∀ p ∈ calculateLfgDistribution activeBinId lowerBinId upperBinId curvature,
      1 ≤ p.2) ∧
    10000 ≤
      ((calculateLfgDistribution activeBinId lowerBinId upperBinId curvature).map
        Prod.snd).sum := by
  have h : ¬ upperBinId - lowerBinId + 1 ≤ 0 := by omega
  have hsnd := calculateLfgDistribution_map_snd activeBinId lowerBinId upperBinId curvature h
  set ws := lfgIntWeights (lfgRawWeights
      (1 + max 0 (min 1 curvature) * 12)
      (max lowerBinId (min upperBinId activeBinId))
      (max 1 (max (max lowerBinId (min upperBinId activeBinId) - lowerBinId)
        (upperBinId - max lowerBinId (min upperBinId activeBinId))))
      lowerBinId (upperBinId - lowerBinId + 1).toNat) with hwsdef
  have hwslen : ws.length = (upperBinId - lowerBinId + 1).toNat := by
    rw [hwsdef]
    unfold lfgIntWeights lfgRawWeights
    rw [List.length_map, List.length_map, List.length_range]
  have hwsne : ws ≠ [] := by
    intro hnil
    rw [hnil] at hwslen
    simp at hwslen
    omega
  refine ⟨?_, ?_, ?_⟩
  · have := congrArg List.length hsnd
    simpa [absorbRemainder_length ws hwsne, hwslen] using this
  · intro p hp
    have hmem : p.2 ∈ (calculateLfgDistribution activeBinId lowerBinId upperBinId
        curvature).map Prod.snd := List.mem_map_of_mem Prod.snd hp
    rw [hsnd] at hmem
    exact absorbRemainder_one_le ws (lfgIntWeights_one_le _) p.2 hmem
  · rw [hsnd]
    exact absorbRemainder_sum_ge ws hwsne

/-- C1 amended witness: the bounds applied at the concrete single-bin range
[0,0] with curvature 0. -/
theorem calculateLfgDistribution_weights_witness :
    (calculateLfgDistribution 0 0 0 0).length = 1 ∧
    (∀ p ∈ calculateLfgDistribution 0 0 0 0, 1 ≤ p.2) ∧
    10000 ≤ ((calculateLfgDistribution 0 0 0 0).map Prod.snd).sum := by
  have h := calculateLfgDistribution_weights 0 0 0 0 (le_refl 0) (by norm_num)
    (by norm_num) (by norm_num)
  simpa using h

/-- Numeric bound used by the counterexample: `exp 13 > 20000`. -/
theorem real_exp_thirteen_gt : (20000:ℝ) < Real.exp 13 := by
  have he : (2.7182818283:ℝ) < Real.exp 1 := Real.exp_one_gt_d9
  have hp : Real.exp 13 = Real.exp 1 ^ (13:ℕ) := by
    rw [← Real.exp_nat_mul]; norm_num
  rw [hp]
  calc (20000:ℝ) < 2.7182818283 ^ (13:ℕ) := by norm_num
    _ < Real.exp 1 ^ (13:ℕ) := by gcongr

/-- Numeric bound used by the counterexample: `exp (-13) < 1/20000`. -/
theorem real_exp_neg_thirteen_lt : Real.exp (-13) < 1/20000 := by
  rw [Real.exp_neg]
  rw [show (1:ℝ)/20000 = (20000:ℝ)⁻¹ by norm_num]
  exact inv_strictAnti₀ (by norm_num) real_exp_thirteen_gt

/-- Raw weights of the 3-bin range [0,2] centered at bin 1 with curvature 1
(`alpha = 13`, `maxDist = 1`). -/
theorem lfgRawWeights_three_bins :
    lfgRawWeights 13 1 1 0 3 = [Real.exp (-13), 1, Real.exp (-13)] := by
  unfold lfgRawWeights
  norm_num [List.range_succ, Real.exp_zero]

/-- Clamped integer weights of that range: the two edge bins floor to 0 and
are clamped up to 1 while the center bin gets 9999. -/
theorem lfgIntWeights_three_bins :
    lfgIntWeights [Real.exp (-13), 1, Real.exp (-13)] = [1, 9999, 1] := by
  have hε0 : (0:ℝ) < Real.exp (-13) := Real.exp_pos _
  have hεlt := real_exp_neg_thirteen_lt
  set ε := Real.exp (-13) with hεdef
  have hT0 : (0:ℝ) < 2*ε + 1 := by linarith
  have hfloor0 : ⌊ε / (2*ε + 1) * 10000⌋ = 0 := by
    rw [Int.floor_eq_zero_iff]
    constructor
    · positivity
    · rw [div_mul_eq_mul_div, div_lt_one hT0]
      linarith
  have hfloor9999 : ⌊(1:ℝ) / (2*ε + 1) * 10000⌋ = 9999 := by
    rw [Int.floor_eq_iff]
    constructor
    · rw [div_mul_eq_mul_div, le_div_iff₀ hT0]
      push_cast
      linarith
    · rw [div_mul_eq_mul_div, div_lt_iff₀ hT0]
      push_cast
      linarith
  have hsum : ([ε, (1:ℝ), ε]).sum = 2*ε + 1 := by
    simp [List.sum_cons]
    ring
  unfold lfgIntWeights
  simp only [List.map_cons, List.map_nil, hsum]
  rw [hfloor0, hfloor9999]
  norm_num

/-- C1 counterexample: at active bin 1, range [0,2], curvature 1 (all inside
the claimed domain: 3 bins, curvature in [0,1]) the weights are
[1, 9999, 1] — the two edge bins floor to 0, are clamped up to 1, and the
remainder assignment to the last bin is itself clamped at 1 — so the total is
10001, not exactly 10000. -/
theorem calculateLfgDistribution_sum_overshoots :
    ((calculateLfgDistribution 1 0 2 1).map Prod.snd).sum = 10001 ∧
    ((calculateLfgDistribution 1 0 2 1).map Prod.snd).sum ≠ 10000 := by
  have h3 : ¬ ((2:ℤ) - 0 + 1 ≤ 0) := by norm_num
  have key : (calculateLfgDistribution 1 0 2 1).map Prod.snd = [1, 9999, 1] := by
    rw [calculateLfgDistribution_map_snd 1 0 2 1 h3]
    norm_num
    show absorbRemainder (lfgIntWeights (lfgRawWeights 13 1 1 0 3)) = [1, 9999, 1]
    rw [lfgRawWeights_three_bins, lfgIntWeights_three_bins]
    decide
  rw [key]
  exact ⟨by decide, by decide⟩

/-- C7 counterexample: with `lowerBin = 1 > 0 = upperBin` the distribution is
the empty list — in particular not a (length-one) single-bin distribution of
weight 10000. -/
theorem calculateLfgDistribution_inverted_empty :
    calculateLfgDistribution 5 1 0 (1/2) = [] ∧
    (calculateLfgDistribution 5 1 0 (1/2)).length ≠ 1 := by
  have h : calculateLfgDistribution 5 1 0 (1/2) = [] := by
    unfold calculateLfgDistribution
    norm_num
  exact ⟨h, by rw [h]; decide⟩

/-- Raw weight list of a single-bin range: the only distance is 0, so the
only raw weight is `exp 0 = 1`, for every alpha and maxDist. -/
theorem lfgRawWeights_single (alpha : ℝ) (lo m : ℤ) :
    lfgRawWeights alpha lo m lo 1 = [1] := by
  unfold lfgRawWeights
  norm_num [List.range_succ, Real.exp_zero]

/-- Clamped integer weights of the single raw weight 1: `[10000]`. -/
theorem lfgIntWeights_single : lfgIntWeights [(1:ℝ)] = [10000] := by
  unfold lfgIntWeights
  norm_num

/-- C7 amended: an inverted range (`lowerBin > upperBin`) yields the empty
distribution (not a single 10000-weight bin); only a range that collapses to
a single bin (`lowerBin = upperBin`) yields the single-bin distribution of
weight 10000. -/
theorem calculateLfgDistribution_edge_behavior :
    (∀ (activeBinId lowerBinId upperBinId : ℤ) (curvature : ℝ),
      upperBinId < lowerBinId →
      calculateLfgDistribution activeBinId lowerBinId upperBinId curvature = []) ∧
    (∀ (activeBinId lowerBinId : ℤ) (curvature : ℝ),
      calculateLfgDistribution activeBinId lowerBinId lowerBinId curvature =
        [(lowerBinId, 10000)]) := by
  constructor
  · intro a lo hi c hlt
    unfold calculateLfgDistribution
    rw [if_pos (by omega)]
  · intro a lo c
    unfold calculateLfgDistribution
    rw [if_neg (by omega : ¬ (lo - lo + 1 ≤ 0))]
    have hcen : max lo (min lo a) = lo := max_eq_left (min_le_left _ _)
    have hone : lo - lo + 1 = 1 := by ring
    simp only [hcen, hone, sub_self]
    norm_num [lfgRawWeights_single, lfgIntWeights_single, absorbRemainder,
      List.enum, List.enumFrom]
  

/-- C7 amended witness: the edge behavior applied at the concrete inverted
range [4,2] and at the concrete single-bin range [3,3]. -/
theorem calculateLfgDistribution_edge_behavior_witness :
    calculateLfgDistribution 9 4 2 (1/2) = [] ∧
    calculateLfgDistribution 7 3 3 (1/2) = [(3, 10000)] :=
  ⟨calculateLfgDistribution_edge_behavior.1 9 4 2 (1/2) (by norm_num),
   calculateLfgDistribution_edge_behavior.2 7 3 (1/2)⟩

/-! ## Meteora DLMM plan building (DLMMManager.ts lines 145-543) -/

/-- Modelled from the spec: the presets file (`./presets`, providing
`LaunchStyles.VIRAL`) is not in the corpus. Per the spec's defaults — the
cost estimator's `binStep ?? 100` and `defaultWidth = 80`, and the README's
default preset (`binStep 100, width 80, Spot`) — the VIRAL preset carries
bin step 100. -/
def launchStyleViralBinStep : ℤ := 100

/-- Modelled from the spec: VIRAL preset width (spec default width 80). -/
def launchStyleViralWidth : ℤ := 80

/-- Modelled from the spec: VIRAL preset strategy shape name. -/
def launchStyleViralStrategy : String := "Spot"

/-- `options.meteora ?? LaunchStyles.VIRAL` (DLMMManager.ts line 169). -/
def dlmmMeteora (o : LaunchOptions) : MeteoraConfig :=
  o.meteora.getD
    { binStep := some launchStyleViralBinStep
      width := some launchStyleViralWidth
      strategyName := some launchStyleViralStrategy }

/-- `strategyTypeFromString` (lines 171-181): `"Curve"`, `"BidAsk"`, and a
default (including `"Spot"`) of Spot. -/
def strategyTypeFromString (s : Option String) : StratTy :=
  if s = some "Curve" then .curve
  else if s = some "BidAsk" then .bidAsk
  else .spot

/-- Resolved `config.binStep` (line 184). -/
def dlmmBinStep (o : LaunchOptions) : ℤ :=
  (dlmmMeteora o).binStep.getD launchStyleViralBinStep

/-- Resolved `config.width` (line 185). -/
def dlmmWidth (o : LaunchOptions) : ℤ :=
  (dlmmMeteora o).width.getD launchStyleViralWidth

/-- Resolved `config.strategyType` (lines 186-188). -/
def dlmmStrategyType (o : LaunchOptions) : StratTy :=
  ((dlmmMeteora o).strategyTypeOpt).getD
    (strategyTypeFromString
      (some (((dlmmMeteora o).strategyName).getD launchStyleViralStrategy)))

/-- Resolved `baseFactor` (line 192; default 10000). -/
def dlmmBaseFactor (o : LaunchOptions) : ℤ :=
  (dlmmMeteora o).baseFactor.getD 10000

/-- Resolved `feeBpsNumber` (lines 193-194):
`meteora.feeBps ?? Math.floor(baseFactor * binStep / 10000)`. -/
def dlmmFeeBps (o : LaunchOptions) : ℤ :=
  (dlmmMeteora o).feeBps.getD
    ⌊((dlmmBaseFactor o * dlmmBinStep o : ℤ) : ℚ) / 10000⌋

/-- `maxFeeBps = Math.floor(U16_MAX * binStep / 10000)` (lines 196-198). -/
def dlmmMaxFeeBps (o : LaunchOptions) : ℤ :=
  ⌊((65535 * dlmmBinStep o : ℤ) : ℚ) / 10000⌋

/-- The fee validation error message (lines 200-202). -/
def dlmmInvalidFeeMsg (o : LaunchOptions) : String :=
  "Invalid Meteora feeBps: " ++ toString (dlmmFeeBps o) ++ ". Max for binStep=" ++
    toString (dlmmBinStep o) ++ " is " ++ toString (dlmmMaxFeeBps o) ++ "."

/-- Resolved sol-side liquidity (lines 207-208):
`options.liquidity?.solAmount ?? options.solLiquidityAmount ?? 0`. -/
def dlmmSolAmount (o : LaunchOptions) : ℚ :=
  match o.liquidity with
  | some l => l.solAmount
  | none => o.solLiquidityAmount.getD 0

/-- Resolved token-side liquidity (lines 209-210). -/
def dlmmTokenAmount (o : LaunchOptions) : ℚ :=
  match o.liquidity with
  | some l => l.tokenAmount
  | none => o.tokenLiquidityAmount.getD 0

/-- Oracle for the external collaborators of `DLMMManager.initialize`: the
byte ordering of the mint against WSOL, the SDK price-to-bin conversions
(IEEE computations around `DLMM.getPricePerLamport` / `getBinIdFromPrice`),
the batched bin-array existence read, the clock, the generated position
keypair and the derived pool PDA. -/
structure DlmmOracle where
  mintSortsBeforeWsol : Bool
  activeBinOf : ℚ → ℚ → ℕ → ℤ → Bool → ℤ
  priceBinOf : ℚ → ℕ → ℤ → Bool → ℤ
  binArrayHasAccount : ℤ → Bool
  nowMs : ℤ
  positionKey : ℕ
  poolPda : ℕ

/-- Network interactions of `initialize`, in source order: the SDK
pool-creation call against the connection (line 260) and the batched
`getMultipleAccountsInfo` read (line 329). -/
inductive DlmmNetCall
  | rpcCreateLbPair
  | rpcGetMultipleAccounts (binArrayIndexes : List ℤ)
  deriving DecidableEq

/-- The instruction kinds a DLMM plan can contain. -/
inductive DlmmIx
  | createPool (binStep activeId feeBps activationType activationPoint : ℤ)
      (includeAlphaVault : Bool)
  | initBinArray (index : ℤ)
  | initPosition (lowerBinId width : ℤ)
  | wrapTransfer (lamports : ℤ)
  | syncNative
  | addLiquidityByWeight (activeId : ℤ) (dist : List (ℤ × ℤ))
  | addLiquidityByStrategy (minBinId maxBinId : ℤ) (strategyType : StratTy)
  | closeWsolAccount
  deriving DecidableEq

/-- The plan returned by `initialize` (pool id, flat instruction list, extra
signers — the freshly generated position key). -/
structure DlmmPlan where
  poolId : ℕ
  instructions : List DlmmIx
  signers : List ℕ
  deriving DecidableEq

/-- Meteora SDK `binIdToBinArrayIndex`: bins are grouped into fixed arrays of
70 (floor division). -/
def binIdToBinArrayIndex (binId : ℤ) : ℤ := Int.fdiv binId 70

/-- Meteora SDK `getBinArrayIndexesCoverage`: every array index spanned by
the inclusive bin range, in ascending order. -/
def binArrayIndexesCoverage (lowerBinId upperBinId : ℤ) : List ℤ :=
  (List.range
      (binIdToBinArrayIndex upperBinId - binIdToBinArrayIndex lowerBinId + 1).toNat).map
    (fun i : ℕ => binIdToBinArrayIndex lowerBinId + (i : ℤ))

/-- Activation type and point (lines 238-258): an activation date (from
either config block) forces timestamp activation at that epoch-second; else
an explicit activation point keeps the requested type; else timestamp
activation at the current time. -/
def dlmmActivation (o : LaunchOptions) (g : DlmmOracle) : ℤ × ℤ :=
  let requestedType : ℤ :=
    if (o.meteoraOptions.bind (fun t => t.activationType)) = some "slot" then 0 else 1
  match (dlmmMeteora o).activationDateMs with
  | some ms => (1, Int.fdiv ms 1000)
  | none =>
    match o.meteoraOptions.bind (fun t => t.activationDateMs) with
    | some ms => (1, Int.fdiv ms 1000)
    | none =>
      match o.meteoraOptions.bind (fun t => t.activationPoint) with
      | some p => (requestedType, p)
      | none => (1, Int.fdiv g.nowMs 1000)

/-- `hasLfg` (lines 276-279): the lfg block is present and carries both
prices (the source's trailing `|| lfg !== undefined` disjunct, kept here, is
always true in that branch). -/
def dlmmHasLfg (o : LaunchOptions) : Bool :=
  match (dlmmMeteora o).lfg with
  | some l => l.minPrice.isSome && l.maxPrice.isSome && (l.curvature.isSome || true)
  | none => false

/-- `DLMMManager.initialize` (DLMMManager.ts lines 145-543): the produced
network-call trace paired with either a validation error or the final plan.
Validation order and network-call order follow the source: the fee check and
the liquidity check run before anything touches the connection, the SDK
pool-creation call comes next, then the lfg range validation, the batched
bin-array read, and the instruction assembly. -/
noncomputable def dlmmInitPlan (o : LaunchOptions) (g : DlmmOracle) :
    List DlmmNetCall × Except String DlmmPlan :=
  if dlmmFeeBps o ≤ 0 ∨ dlmmMaxFeeBps o < dlmmFeeBps o then
    ([], .error (dlmmInvalidFeeMsg o))
  else if dlmmSolAmount o ≤ 0 ∨ dlmmTokenAmount o ≤ 0 then
    ([], .error "Meteora DLMM requires both solAmount and tokenAmount to seed initial liquidity")
  else
    let invertPrice := ! g.mintSortsBeforeWsol
    let resolvedDecimals := o.decimals.getD 6
    let activeId := g.activeBinOf (dlmmSolAmount o) (dlmmTokenAmount o) resolvedDecimals
      (dlmmBinStep o) invertPrice
    let act := dlmmActivation o g
    let createIx := DlmmIx.createPool (dlmmBinStep o) activeId (dlmmFeeBps o) act.1 act.2
      ((dlmmMeteora o).includeAlphaVault.getD false)
    let rest : ℤ → ℤ → List DlmmNetCall × Except String DlmmPlan :=
      fun lowerBinId upperBinId =>
      let binCount := upperBinId - lowerBinId + 1
      let shouldUseLfgWeights := dlmmHasLfg o && decide (binCount ≤ 26)
      let binArrayIndexes := binArrayIndexesCoverage lowerBinId upperBinId
      let events := [DlmmNetCall.rpcCreateLbPair,
        DlmmNetCall.rpcGetMultipleAccounts binArrayIndexes]
      let initBinArrayIxs :=
        (binArrayIndexes.filter (fun i => ! g.binArrayHasAccount i)).map DlmmIx.initBinArray
      let xIsWsol := ! g.mintSortsBeforeWsol
      let yIsWsol := g.mintSortsBeforeWsol
      let decimalsOrSix : ℕ :=
        match o.decimals with
        | some d => if d = 0 then 6 else d
        | none => 6
      let xDecimals : ℕ := if xIsWsol then 9 else decimalsOrSix
      let yDecimals : ℕ := if yIsWsol then 9 else decimalsOrSix
      let xAmountLamports : ℤ :=
        ⌊(if xIsWsol then dlmmSolAmount o else dlmmTokenAmount o) * (10:ℚ) ^ xDecimals⌋
      let yAmountLamports : ℤ :=
        ⌊(if yIsWsol then dlmmSolAmount o else dlmmTokenAmount o) * (10:ℚ) ^ yDecimals⌋
      let xWrapIxs := if xIsWsol && decide (0 < xAmountLamports) then
          [DlmmIx.wrapTransfer xAmountLamports, DlmmIx.syncNative] else []
      let yWrapIxs := if yIsWsol && decide (0 < yAmountLamports) then
          [DlmmIx.wrapTransfer yAmountLamports, DlmmIx.syncNative] else []
      let wsolCloseIxs :=
        (if xIsWsol && decide (0 < xAmountLamports) then [DlmmIx.closeWsolAccount] else [])
          ++ (if yIsWsol && decide (0 < yAmountLamports) then [DlmmIx.closeWsolAccount] else [])
      let baseIxs := [createIx] ++ initBinArrayIxs
        ++ [DlmmIx.initPosition lowerBinId (upperBinId - lowerBinId + 1)]
        ++ xWrapIxs ++ yWrapIxs
      if shouldUseLfgWeights then
        let curvatureQ := ((dlmmMeteora o).lfg.bind (fun l => l.curvature)).getD (6/10)
        let dist := calculateLfgDistribution activeId lowerBinId upperBinId
          ((curvatureQ : ℚ) : ℝ)
        if dist.length = 0 then
          (events, .error "Failed to compute LFG distribution")
        else
          (events, .ok
            { poolId := g.poolPda
              instructions :=
                baseIxs ++ [DlmmIx.addLiquidityByWeight activeId dist] ++ wsolCloseIxs
              signers := [g.positionKey] })
      else
        let strategyType := if dlmmHasLfg o then StratTy.spot else dlmmStrategyType o
        (events, .ok
          { poolId := g.poolPda
            instructions :=
              baseIxs ++ [DlmmIx.addLiquidityByStrategy lowerBinId upperBinId strategyType]
                ++ wsolCloseIxs
            signers := [g.positionKey] })
    match (dlmmMeteora o).lfg with
    | some l =>
      match l.minPrice, l.maxPrice with
      | some mnRaw, some mxRaw =>
        if mnRaw ≤ 0 ∨ mxRaw ≤ 0 then
          ([DlmmNetCall.rpcCreateLbPair], .error "meteora.lfg minPrice/maxPrice must be > 0")
        else
          let minBinId := g.priceBinOf (min mnRaw mxRaw) resolvedDecimals (dlmmBinStep o)
            invertPrice
          let maxBinId := g.priceBinOf (max mnRaw mxRaw) resolvedDecimals (dlmmBinStep o)
            invertPrice
          rest (min minBinId maxBinId) (max minBinId maxBinId)
      | _, _ =>
        ([DlmmNetCall.rpcCreateLbPair], .error "meteora.lfg requires minPrice and maxPrice")
    | none =>
      let lowerBinId := activeId - Int.fdiv (dlmmWidth o) 2
      rest lowerBinId (lowerBinId + dlmmWidth o - 1)

/-- The lower bin of the symmetric default range (line 308):
`activeId - Math.floor(width / 2)`. -/
def dlmmDefaultLowerBin (o : LaunchOptions) (g : DlmmOracle) : ℤ :=
  g.activeBinOf (dlmmSolAmount o) (dlmmTokenAmount o) (o.decimals.getD 6) (dlmmBinStep o)
    (! g.mintSortsBeforeWsol) - Int.fdiv (dlmmWidth o) 2

/-- Instruction list carried by a plan result (empty on error). -/
def dlmmPlanInstructions : Except String DlmmPlan → List DlmmIx
  | .ok p => p.instructions
  | .error _ => []

/-! ## Theorems: C5 (fee validation before any network call) -/

/-- C5: whenever the resolved feeBps is ≤ 0 or exceeds
`floor(65535 · binStep / 10000)`, `initialize` fails with the descriptive fee
error and the network-call trace is empty — the fee check precedes every
connection read and the pool-creation call. -/
theorem dlmmInitPlan_fee_validation (o : LaunchOptions) (g : DlmmOracle)
    (h : dlmmFeeBps o ≤ 0 ∨ dlmmMaxFeeBps o < dlmmFeeBps o) :
    dlmmInitPlan o g = ([], .error (dlmmInvalidFeeMsg o)) := by
  simp only [dlmmInitPlan]
  rw [if_pos h]

/-- Options with explicit binStep 100 and feeBps 70000, far beyond the
derived cap of 655. -/
def oBadFee : LaunchOptions :=
  { liquidity := some ⟨1, 100⟩
    decimals := some 6
    meteora := some { binStep := some 100, feeBps := some 70000 } }

/-- A concrete oracle for witness evaluation. -/
def gTest : DlmmOracle :=
  { mintSortsBeforeWsol := false
    activeBinOf := fun _ _ _ _ _ => 0
    priceBinOf := fun _ _ _ _ => 0
    binArrayHasAccount := fun _ => false
    nowMs := 0
    positionKey := 7
    poolPda := 9 }

/-- C5 witness: feeBps 70000 against binStep 100 (derived cap 655) fails with
the exact message and no network call. -/
theorem dlmmInitPlan_fee_validation_witness :
    dlmmInitPlan oBadFee gTest =
      ([], .error "Invalid Meteora feeBps: 70000. Max for binStep=100 is 655.") := by
  have hfee : dlmmFeeBps oBadFee = 70000 := by
    norm_num [dlmmFeeBps, dlmmMeteora, oBadFee]
  have hmax : dlmmMaxFeeBps oBadFee = 655 := by
    norm_num [dlmmMaxFeeBps, dlmmBinStep, dlmmMeteora, oBadFee]
  have h := dlmmInitPlan_fee_validation oBadFee gTest
    (Or.inr (by rw [hfee, hmax]; norm_num))
  rw [h]
  simp only [dlmmInvalidFeeMsg, hfee, hmax]
  rfl

/-! ## Theorems: C4 (no position-width cap) -/

/-- Shared C4 evidence: with a valid fee, valid liquidity and no lfg range,
plan building succeeds and the position instruction requests exactly the
resolved width at the symmetric default lower bin. -/
theorem dlmmInitPlan_width_passthrough (o : LaunchOptions) (g : DlmmOracle)
    (hfee : ¬ (dlmmFeeBps o ≤ 0 ∨ dlmmMaxFeeBps o < dlmmFeeBps o))
    (hliq : ¬ (dlmmSolAmount o ≤ 0 ∨ dlmmTokenAmount o ≤ 0))
    (hlfg : (dlmmMeteora o).lfg = none) :
    (dlmmInitPlan o g).2.isOk = true ∧
    DlmmIx.initPosition (dlmmDefaultLowerBin o g) (dlmmWidth o) ∈
      dlmmPlanInstructions (dlmmInitPlan o g).2 := by
  have hh : dlmmHasLfg o = false := by
    simp [dlmmHasLfg, hlfg]
  simp only [dlmmInitPlan]
  rw [if_neg hfee, if_neg hliq, hlfg]
  simp only [hh, Bool.false_and, Bool.false_eq_true, if_false]
  refine ⟨rfl, ?_⟩
  simp only [dlmmPlanInstructions]
  apply List.mem_append_left
  apply List.mem_append_left
  apply List.mem_append_left
  apply List.mem_append_left
  apply List.mem_append_right
  rw [List.mem_singleton]
  have harith : ∀ lo : ℤ, lo + dlmmWidth o - 1 - lo + 1 = dlmmWidth o := by
    intro lo
    ring
  rw [harith]
  rfl

/-- Options requesting a 100-bin position (width 100), valid fee and
liquidity, no explicit price range. -/
def oWide : LaunchOptions :=
  { liquidity := some ⟨1, 100⟩
    decimals := some 6
    meteora := some { binStep := some 100, width := some 100, feeBps := some 100 } }

/-- C4 counterexample: requesting width 100 — beyond the program's 70-bin
per-position cap — with a valid fee and valid liquidity raises no error:
`initialize` returns a complete plan whose position instruction spans all 100
bins (lower bin -50 around active bin 0), rather than failing fast with a
descriptive error. -/
theorem dlmmInitPlan_width_100_no_error :
    (dlmmInitPlan oWide gTest).2.isOk = true ∧
    DlmmIx.initPosition (-50) 100 ∈ dlmmPlanInstructions (dlmmInitPlan oWide gTest).2 ∧
    (70:ℤ) < 100 := by
  have hfee : ¬ (dlmmFeeBps oWide ≤ 0 ∨ dlmmMaxFeeBps oWide < dlmmFeeBps oWide) := by
    norm_num [dlmmFeeBps, dlmmMaxFeeBps, dlmmBinStep, dlmmMeteora, oWide]
  have hliq : ¬ (dlmmSolAmount oWide ≤ 0 ∨ dlmmTokenAmount oWide ≤ 0) := by
    norm_num [dlmmSolAmount, dlmmTokenAmount, oWide]
  have h := dlmmInitPlan_width_passthrough oWide gTest hfee hliq rfl
  have hlow : dlmmDefaultLowerBin oWide gTest = -50 := by
    simp only [dlmmDefaultLowerBin, gTest, dlmmWidth, dlmmMeteora, oWide, Option.getD_some]
    decide
  have hwidth : dlmmWidth oWide = 100 := by
    simp only [dlmmWidth, dlmmMeteora, oWide, Option.getD_some]
  rw [hlow, hwidth] at h
  exact ⟨h.1, h.2, by norm_num⟩

/-- C4 amended: `initialize` applies no per-position width validation at all:
for every option record with a valid fee, valid liquidity and no explicit
price range — however large the resolved width — plan building succeeds and
the emitted position instruction requests exactly the resolved width; an
over-cap request is neither rejected fast with an error nor truncated. -/
theorem dlmmInitPlan_no_width_cap (o : LaunchOptions) (g : DlmmOracle)
    (hfee : ¬ (dlmmFeeBps o ≤ 0 ∨ dlmmMaxFeeBps o < dlmmFeeBps o))
    (hliq : ¬ (dlmmSolAmount o ≤ 0 ∨ dlmmTokenAmount o ≤ 0))
    (hlfg : (dlmmMeteora o).lfg = none) :
    (dlmmInitPlan o g).2.isOk = true ∧
    DlmmIx.initPosition (dlmmDefaultLowerBin o g) (dlmmWidth o) ∈
      dlmmPlanInstructions (dlmmInitPlan o g).2 :=
  dlmmInitPlan_width_passthrough o g hfee hliq hlfg

/-- C4 amended witness: the width pass-through applied at the concrete
100-bin request. -/
theorem dlmmInitPlan_no_width_cap_witness :
    (dlmmInitPlan oWide gTest).2.isOk = true ∧
    DlmmIx.initPosition (dlmmDefaultLowerBin oWide gTest) (dlmmWidth oWide) ∈
      dlmmPlanInstructions (dlmmInitPlan oWide gTest).2 :=
  dlmmInitPlan_no_width_cap oWide gTest
    (by norm_num [dlmmFeeBps, dlmmMaxFeeBps, dlmmBinStep, dlmmMeteora, oWide])
    (by norm_num [dlmmSolAmount, dlmmTokenAmount, oWide])
    rfl
